import Mathlib

/-!
Verification of the ops-controller reconciliation system.

Shallow embedding of the Python sources under `.railway/ops-controller/`
(`railway_client.py`, `postgres_configurator.py`, `digitalocean_manager.py`,
`config.py`, `ops_controller.py`).  Pure logic is translated into executable
Lean functions; effectful calls (database queries, HTTP calls, provisioning
requests) are modelled by explicit environment records that give each call's
outcome, and mutating operations additionally return an action trace so that
theorems can speak about which external operations were attempted.
-/

namespace OpsCtrl

/-! ## Configuration Extractor (`railway_client.py`)

`RailwayClient.extract_worker_token` resolves the worker token with the
priority: manual override, cached value, log scan.  The log scan is Python's
`re.findall(r"(tr_wgt_[a-zA-Z0-9]+)", logs)` followed by taking the last
match.  `findTokens` embeds `re.findall` for this fixed pattern: scan left to
right, at each position try to match the literal start `tr_wgt_` followed by a
maximal non-empty alphanumeric run, and on success resume after the match. -/

/-- The literal characters of the token pattern's fixed start, `tr_wgt_`. -/
def tokenStart : List Char := ['t', 'r', '_', 'w', 'g', 't', '_']

/-- The character class `[a-zA-Z0-9]` of the token pattern. -/
def isAlnumChar (c : Char) : Bool :=
  ('a' ≤ c && c ≤ 'z') || ('A' ≤ c && c ≤ 'Z') || ('0' ≤ c && c ≤ '9')

/-- Scanner body for `findTokens`, structurally recursive on a fuel argument
so that the function reduces definitionally; every step consumes at least one
character, so fuel equal to the list length never runs out. -/
def findTokensAux : Nat → List Char → List (List Char)
  | 0, _ => []
  | _, [] => []
  | fuel + 1, c :: rest =>
    if (c :: rest).take 7 = tokenStart then
      let suffix := (rest.drop 6).takeWhile isAlnumChar
      if suffix = [] then
        findTokensAux fuel rest
      else
        (tokenStart ++ suffix) :: findTokensAux fuel ((rest.drop 6).drop suffix.length)
    else
      findTokensAux fuel rest

/-- All matches of `tr_wgt_[a-zA-Z0-9]+` in a character list, in order,
non-overlapping, greedy — the semantics of `re.findall` on this pattern. -/
def findTokens (s : List Char) : List (List Char) :=
  findTokensAux s.length s

/-- Python truthiness of an optional string argument (`None` and `""` are
falsy). -/
def optTruthy : Option String → Bool
  | none => false
  | some s => s ≠ ""

/-- Priority 3 of `extract_worker_token`: scan the fetched log text.
`if not logs: return None`, otherwise return the last regex match, or
`None` when there is no match. -/
def extractTokenFromLogs (logs : String) : Option String :=
  if logs = "" then none
  else (findTokens logs.data).getLast?.map (fun l => String.mk l)

/-- `RailwayClient.extract_worker_token`: manual override
(`Config.TRIGGER_WORKER_TOKEN`), then the cached token, then the log scan.
The fetched log text of the webapp service is passed in as `logs`. -/
def extract_worker_token (manual : String) (cached : Option String)
    (logs : String) : Option String :=
  if manual ≠ "" then some manual
  else if optTruthy cached then cached
  else extractTokenFromLogs logs

/-! ## Replication Configurator (`postgres_configurator.py`)

The database connection is modelled by a `PgDb` record: the observable
answers of the read-only queries plus the outcome of each mutating statement.
A failing read resolves to its sentinel value exactly as in the source
(`check_wal_level` catches and returns `"unknown"`, `check_replica_identity`
catches and returns `"error"`, `check_publication_exists` catches and returns
`False`), so read errors are folded into the observable answer fields.
Mutations return the updated database together with their success flag, and
`configure_replication` additionally returns the trace of mutating actions it
attempted. -/

/-- Outcome of executing `CREATE PUBLICATION`: success, failure whose message
contains `"already exists"`, or any other failure. -/
inductive CreatePubOutcome
  | ok
  | alreadyExists
  | err
deriving DecidableEq, Repr

/-- Observable database behaviour for one convergence attempt. -/
structure PgDb where
  /-- What `SHOW wal_level` reports (`"unknown"` when the read fails or
  returns no row). -/
  wal_level : String
  /-- The `pg_class.relreplident` lookup for the target table: `none` when
  the query itself fails, `some none` when no row is found, `some (some c)`
  for a row with character `c`. -/
  relreplident : Option (Option Char)
  /-- Whether the `pg_publication` lookup finds the publication (`false` also
  when the read fails, as in the source's exception handler). -/
  pub_exists : Bool
  /-- Whether `ALTER SYSTEM SET wal_level = 'logical'` succeeds. -/
  set_wal_ok : Bool
  /-- Whether `ALTER TABLE ... REPLICA IDENTITY FULL` succeeds. -/
  set_ident_ok : Bool
  /-- Outcome of `CREATE PUBLICATION ... FOR TABLE ...`. -/
  create_pub_outcome : CreatePubOutcome
deriving DecidableEq, Repr

/-- The `identity_map` dictionary lookup of `check_replica_identity`, with
its `'unknown'` default for an unrecognised `relreplident` character. -/
def identity_map (c : Char) : String :=
  if c = 'd' then "default"
  else if c = 'n' then "nothing"
  else if c = 'f' then "full"
  else if c = 'i' then "index"
  else "unknown"

/-- `PostgresConfigurator.check_wal_level`. -/
def check_wal_level (db : PgDb) : String := db.wal_level

/-- `PostgresConfigurator.check_replica_identity`: `"error"` on a failing
query, `"not_found"` when no row matches, otherwise `identity_map`. -/
def check_replica_identity (db : PgDb) : String :=
  match db.relreplident with
  | none => "error"
  | some none => "not_found"
  | some (some c) => identity_map c

/-- `PostgresConfigurator.check_publication_exists`. -/
def check_publication_exists (db : PgDb) : Bool := db.pub_exists

/-- The issue string appended when the WAL level is not `logical`. -/
def walIssue (db : PgDb) : String :=
  "WAL level is '" ++ check_wal_level db ++ "', needs to be 'logical'"

/-- The issue string appended when the replica identity is not `full`. -/
def identIssue (db : PgDb) : String :=
  "Replica identity is '" ++ check_replica_identity db ++ "', needs to be 'full'"

/-- The issue string appended when the publication does not exist. -/
def pubIssue : String := "Publication does not exist"

/-- The `issues` list built by `is_replication_configured`, in source
order. -/
def replicationIssues (db : PgDb) : List String :=
  (if check_wal_level db ≠ "logical" then [walIssue db] else [])
    ++ (if check_replica_identity db ≠ "full" then [identIssue db] else [])
    ++ (if check_publication_exists db = false then [pubIssue] else [])

/-- `PostgresConfigurator.is_replication_configured`: the configured flag and
the joined explanation string. -/
def is_replication_configured (db : PgDb) : Bool × String :=
  if replicationIssues db = [] then
    (true, "Replication is fully configured")
  else
    (false, String.intercalate "; " (replicationIssues db))

/-- `PostgresConfigurator.set_wal_level_logical`: `ALTER SYSTEM` does not
change what `SHOW wal_level` reports until the server restarts, so the
observable state is unchanged; only success or failure is reported. -/
def set_wal_level_logical (db : PgDb) : Bool × PgDb :=
  if db.set_wal_ok then (true, db) else (false, db)

/-- `PostgresConfigurator.set_replica_identity_full`: on success the target
table's `relreplident` becomes `'f'`. -/
def set_replica_identity_full (db : PgDb) : Bool × PgDb :=
  if db.set_ident_ok then
    (true, { db with relreplident := some (some 'f') })
  else
    (false, db)

/-- `PostgresConfigurator.create_publication`: an error whose message
contains `"already exists"` is normalised to success. -/
def create_publication (db : PgDb) : Bool × PgDb :=
  match db.create_pub_outcome with
  | .ok => (true, { db with pub_exists := true })
  | .alreadyExists => (true, db)
  | .err => (false, db)

/-- Mutating actions `configure_replication` may attempt, in trace order. -/
inductive PgAction
  | setWal
  | setIdent
  | createPub
  | restart
deriving DecidableEq, Repr

/-- Step 4 of `configure_replication`: invoke the restart callback when a
restart was flagged, then re-verify and return `is_replication_configured`'s
flag. -/
def configure_step4 (restart_cb : Option (PgDb → PgDb)) (db : PgDb)
    (acts : List PgAction) (restart_needed : Bool) : Bool × PgDb × List PgAction :=
  match restart_needed, restart_cb with
  | true, some cb =>
    let db' := cb db
    ((is_replication_configured db').1, db', acts ++ [PgAction.restart])
  | _, _ => ((is_replication_configured db).1, db, acts)

/-- Step 3 of `configure_replication`: create the publication when the check
says it does not exist; a creation failure returns `False` at once. -/
def configure_step3 (restart_cb : Option (PgDb → PgDb)) (db : PgDb)
    (acts : List PgAction) (restart_needed : Bool) : Bool × PgDb × List PgAction :=
  if check_publication_exists db = false then
    let r := create_publication db
    if r.1 then configure_step4 restart_cb r.2 (acts ++ [PgAction.createPub]) restart_needed
    else (false, r.2, acts ++ [PgAction.createPub])
  else
    configure_step4 restart_cb db acts restart_needed

/-- Step 2 of `configure_replication`: set the replica identity when it is
not `full`; a failure returns `False` at once. -/
def configure_step2 (restart_cb : Option (PgDb → PgDb)) (db : PgDb)
    (acts : List PgAction) (restart_needed : Bool) : Bool × PgDb × List PgAction :=
  if check_replica_identity db ≠ "full" then
    let r := set_replica_identity_full db
    if r.1 then configure_step3 restart_cb r.2 (acts ++ [PgAction.setIdent]) restart_needed
    else (false, r.2, acts ++ [PgAction.setIdent])
  else
    configure_step3 restart_cb db acts restart_needed

/-- `PostgresConfigurator.configure_replication`: short-circuit when already
configured, then step 1 (WAL level — a failure to set it returns `False`
immediately), steps 2–4, and the final verification.  Returns the final
flag, the resulting database, and the trace of attempted mutations. -/
def configure_replication (restart_cb : Option (PgDb → PgDb)) (db : PgDb) :
    Bool × PgDb × List PgAction :=
  if (is_replication_configured db).1 then (true, db, [])
  else if check_wal_level db ≠ "logical" then
    let r := set_wal_level_logical db
    if r.1 then configure_step2 restart_cb r.2 [PgAction.setWal] true
    else (false, r.2, [PgAction.setWal])
  else
    configure_step2 restart_cb db [] false

/-! ## Compute Deployer (`digitalocean_manager.py`) and tag derivation
(`config.py`)

Provider calls are modelled by a `DoEnv` record giving each call's outcome;
`deploy_supervisor` returns its result together with the trace of provider
operations it performed, so that theorems can state that a branch performs no
provider operation at all. -/

/-- A provisioned droplet as observed through the provider API. -/
structure Droplet where
  name : String
  /-- `droplet.ip_address`; `none` models Python `None`. -/
  ip_address : Option String
  tags : List String
  /-- Whether `droplet.destroy()` succeeds (used by `destroy_droplet`). -/
  destroy_ok : Bool
deriving DecidableEq, Repr

/-- `Config.get_supervisor_tag`: the literal tag-prefix, the project id, and
the first 8 characters of the environment id (`"default"` when the
environment id is empty). -/
def get_supervisor_tag (projectId envId : String) : String :=
  let e := if envId ≠ "" then String.mk (envId.data.take 8) else "default"
  "trigger-supervisor" ++ "-" ++ projectId ++ "-" ++ e

/-- `DigitalOceanManager.get_existing_droplets`: filter the provider's full
listing down to droplets whose tag list contains the manager's tag. -/
def get_existing_droplets (tag : String) (all_droplets : List Droplet) : List Droplet :=
  all_droplets.filter (fun d => d.tags.contains tag)

/-- `DigitalOceanManager.destroy_droplet`, with the names of the droplets on
which `destroy()` was attempted: an empty listing returns `True`; otherwise
destroy in order, returning `False` from inside the loop as soon as one
destroy fails. -/
def destroy_droplet (droplets : List Droplet) : Bool × List String :=
  match droplets with
  | [] => (true, [])
  | d :: rest =>
    if d.destroy_ok then
      let r := destroy_droplet rest
      (r.1, d.name :: r.2)
    else
      (false, [d.name])

/-- Provider operations `deploy_supervisor` can perform, in trace order. -/
inductive DoOp
  | listDroplets
  | createDroplet
  | healthCheck (ip : String)
deriving DecidableEq, Repr

/-- Outcomes of the provider calls made during one `deploy_supervisor`
attempt. -/
structure DoEnv where
  /-- The provider's full droplet listing (`manager.get_all_droplets()`). -/
  all_droplets : List Droplet
  /-- The manager's discovery tag. -/
  tag : String
  /-- Eventual outcome of `test_supervisor_health` for a given address. -/
  health_ok : String → Bool
  /-- Outcome of the `droplet.create()` provisioning request: the created
  droplet (with the address it ends up with), or `none` on provider error. -/
  create_result : Option Droplet
  /-- Whether `wait_for_droplet_ready` sees an active droplet with an
  address before its timeout. -/
  wait_ready_ok : Bool

/-- The configuration bundle as a key/value association list. -/
def lookupCfg (cfg : List (String × String)) (k : String) : Option String :=
  (cfg.find? (fun p => p.1 = k)).map (fun p => p.2)

/-- Python truthiness of `config.get(key)`: present and non-empty. -/
def cfgTruthy (cfg : List (String × String)) (k : String) : Bool :=
  optTruthy (lookupCfg cfg k)

/-- The keys `deploy_supervisor` validates before doing anything else. -/
def required_keys : List String :=
  ["TRIGGER_WORKER_TOKEN", "MANAGED_WORKER_SECRET", "TRIGGER_API_URL"]

/-- The create-and-wait tail of `deploy_supervisor`: `create_droplet` first
re-checks the listing (`is_supervisor_deployed`) and skips creation when a
tagged droplet already exists (returning `None`, hence overall `False`);
otherwise the provisioning request is made, then `wait_for_droplet_ready`,
then the health check on the droplet's address. -/
def deploy_create (env : DoEnv) (ops : List DoOp) : Bool × List DoOp :=
  let ops1 := ops ++ [DoOp.listDroplets]
  if get_existing_droplets env.tag env.all_droplets ≠ [] then
    (false, ops1)
  else
    match env.create_result with
    | none => (false, ops1 ++ [DoOp.createDroplet])
    | some d =>
      match d.ip_address with
      | some ip =>
        if env.wait_ready_ok && (ip ≠ "") then
          (env.health_ok ip, ops1 ++ [DoOp.createDroplet, DoOp.healthCheck ip])
        else
          (false, ops1 ++ [DoOp.createDroplet])
      | none => (false, ops1 ++ [DoOp.createDroplet])

/-- The body of `deploy_supervisor` after its configuration validation:
reuse the first existing tagged droplet when it has an address, returning its
re-verified health; otherwise fall through to `create_droplet` →
`wait_for_droplet_ready` → `test_supervisor_health`. -/
def deploy_supervisor_body (env : DoEnv) : Bool × List DoOp :=
  let ops0 := [DoOp.listDroplets]
  match get_existing_droplets env.tag env.all_droplets with
  | d :: _ =>
    match d.ip_address with
    | some ip =>
      if ip ≠ "" then
        (env.health_ok ip, ops0 ++ [DoOp.healthCheck ip])
      else
        deploy_create env ops0
    | none => deploy_create env ops0
  | [] => deploy_create env ops0

/-- `DigitalOceanManager.deploy_supervisor`: validate the three required
configuration keys — missing or empty keys return `False` before any
provider call — then run the deployment body. -/
def deploy_supervisor (cfg : List (String × String)) (env : DoEnv) : Bool × List DoOp :=
  if required_keys.filter (fun k => cfgTruthy cfg k = false) ≠ [] then (false, [])
  else deploy_supervisor_body env

/-! ## Reconciliation Control Loop (`ops_controller.py`)

The controller's cross-cycle state (`deployment_state`, the healthy-cycle
counter and the disabled flag) is an explicit record.  The health/auto-disable
tail of `_run_monitoring_cycle` (lines 424–443) and the PostgreSQL step
(lines 373–391) are embedded as state-transition functions; the interval
arithmetic of `run_monitoring_loop` (lines 345–353) is embedded over `ℚ`
since the elapsed duration is a real-valued number of seconds. -/

/-- The controller's persisted cross-cycle state. -/
structure CtrlState where
  config_extracted : Bool
  postgres_configured : Bool
  supervisor_deployed : Bool
  consecutive_healthy_cycles : Nat
  is_disabled : Bool
deriving DecidableEq, Repr

/-- The cycle-health conjunction of `_run_monitoring_cycle`. -/
def fullyHealthy (s : CtrlState) : Bool :=
  s.config_extracted && s.postgres_configured && s.supervisor_deployed

/-- The tail of `_run_monitoring_cycle`: when all three deployment flags are
true, increment the consecutive-healthy-cycle counter and, when
`AUTO_DISABLE` is set and the counter has reached
`HEALTHY_CYCLES_BEFORE_DISABLE`, set the disabled flag; otherwise reset the
counter to zero. -/
def cycle_health_update (auto_disable : Bool) (threshold : Nat) (s : CtrlState) :
    CtrlState :=
  if fullyHealthy s then
    let n := s.consecutive_healthy_cycles + 1
    let d := if auto_disable && decide (threshold ≤ n) then true else s.is_disabled
    { s with consecutive_healthy_cycles := n, is_disabled := d }
  else
    { s with consecutive_healthy_cycles := 0 }

/-- `OpsController.configure_postgres`: pre-check, then
`configure_replication`; the `postgres_configured` flag is set on either
success path.  Returns the call's result, the updated controller state and
the updated database. -/
def configure_postgres (restart_cb : Option (PgDb → PgDb)) (db : PgDb)
    (s : CtrlState) : Bool × CtrlState × PgDb :=
  if (is_replication_configured db).1 then
    (true, { s with postgres_configured := true }, db)
  else
    let r := configure_replication restart_cb db
    if r.1 then (true, { s with postgres_configured := true }, r.2.1)
    else (false, s, r.2.1)

/-- Step 2 of `_run_monitoring_cycle`: when `postgres_configured` is not set,
run `configure_postgres`; when it is set, run the cheap
`is_replication_configured` re-check only, and downgrade the stored flag to
`False` when the re-check reports the replication not fully configured. -/
def postgres_cycle_step (restart_cb : Option (PgDb → PgDb)) (db : PgDb)
    (s : CtrlState) : CtrlState × PgDb :=
  if s.postgres_configured = false then
    let r := configure_postgres restart_cb db s
    (r.2.1, r.2.2)
  else if (is_replication_configured db).1 then
    (s, db)
  else
    ({ s with postgres_configured := false }, db)

/-- The sleep-time arithmetic of `run_monitoring_loop`:
`max(0, CHECK_INTERVAL * 60 - cycle_duration)` with the interval in minutes
and the duration in seconds. -/
def compute_sleep_time (interval : Nat) (duration : ℚ) : ℚ :=
  max 0 ((interval : ℚ) * 60 - duration)

/-- What the loop does after computing the sleep time: sleep for it when it
is positive, otherwise skip the sleep and print the overrun warning. -/
inductive SleepOutcome
  | sleep (t : ℚ)
  | warn
deriving DecidableEq

/-- The `if sleep_time > 0` branch of `run_monitoring_loop`. -/
def cycle_sleep_action (interval : Nat) (duration : ℚ) : SleepOutcome :=
  if 0 < compute_sleep_time interval duration then
    .sleep (compute_sleep_time interval duration)
  else
    .warn

/-! ## Concrete sample values used to instantiate the theorems -/

/-- A database where the WAL level is not logical and `ALTER SYSTEM` is
refused (a managed database), with replica identity and publication also
unconfigured but settable. -/
def dbWalRefused : PgDb :=
  { wal_level := "replica", relreplident := some (some 'd'), pub_exists := false,
    set_wal_ok := false, set_ident_ok := true, create_pub_outcome := .ok }

/-- A database answering an unrecognised `relreplident` character. -/
def dbUnknownIdent : PgDb :=
  { wal_level := "logical", relreplident := some (some 'x'), pub_exists := true,
    set_wal_ok := true, set_ident_ok := true, create_pub_outcome := .ok }

/-- A database that is fully configured except that the publication has been
dropped out-of-band. -/
def dbPubMissing : PgDb :=
  { wal_level := "logical", relreplident := some (some 'f'), pub_exists := false,
    set_wal_ok := true, set_ident_ok := true, create_pub_outcome := .ok }

/-- A database whose only unmet condition is the WAL level. -/
def dbWalOnly : PgDb :=
  { wal_level := "replica", relreplident := some (some 'f'), pub_exists := true,
    set_wal_ok := true, set_ident_ok := true, create_pub_outcome := .ok }

/-- A controller state with all three deployment flags set. -/
def sHealthy : CtrlState :=
  { config_extracted := true, postgres_configured := true,
    supervisor_deployed := true, consecutive_healthy_cycles := 0,
    is_disabled := false }

/-- A droplet whose `destroy()` call fails. -/
def dropFailA : Droplet :=
  { name := "a", ip_address := none, tags := [], destroy_ok := false }

/-- A droplet whose `destroy()` call succeeds. -/
def dropOkB : Droplet :=
  { name := "b", ip_address := none, tags := [], destroy_ok := true }

/-- A provider environment with no droplets and failing outcomes. -/
def envEmpty : DoEnv :=
  { all_droplets := [], tag := "t", health_ok := fun _ => false,
    create_result := none, wait_ready_ok := false }

/-! ## Theorems -/

/-- C8: for every configured interval `I` (minutes) and every non-negative
elapsed cycle duration `D` (seconds), the computed sleep time equals
`max 0 (I*60 − D)`; when `D < I*60` the loop sleeps exactly the remainder,
and when `D ≥ I*60` it skips the sleep and emits the overrun warning. -/
theorem sleep_time_spec (I : Nat) (D : ℚ) (hD : 0 ≤ D) :
    compute_sleep_time I D = max 0 ((I : ℚ) * 60 - D)
      ∧ (D < (I : ℚ) * 60 → cycle_sleep_action I D = .sleep ((I : ℚ) * 60 - D))
      ∧ ((I : ℚ) * 60 ≤ D → cycle_sleep_action I D = .warn) := by
  refine ⟨rfl, ?_, ?_⟩
  · intro h
    have hpos : 0 < (I : ℚ) * 60 - D := by linarith
    have heq : compute_sleep_time I D = (I : ℚ) * 60 - D := by
      unfold compute_sleep_time
      exact max_eq_right hpos.le
    simp [cycle_sleep_action, heq, hpos]
  · intro h
    have heq : compute_sleep_time I D = 0 := by
      unfold compute_sleep_time
      exact max_eq_left (by linarith)
    simp [cycle_sleep_action, heq]

/-- Witness for C8 at interval 1 minute with durations 30 s and 90 s. -/
theorem sleep_time_spec_witness :
    (0 : ℚ) ≤ 30 ∧ cycle_sleep_action 1 30 = .sleep ((1 : ℚ) * 60 - 30)
      ∧ cycle_sleep_action 1 90 = .warn := by
  refine ⟨by norm_num, ?_, ?_⟩
  · exact (sleep_time_spec 1 30 (by norm_num)).2.1 (by norm_num)
  · exact (sleep_time_spec 1 90 (by norm_num)).2.2 (by norm_num)

/-- C5: a fully-healthy cycle increments the consecutive-healthy counter and,
with auto-disable active and the incremented counter at the threshold, sets
the disabled flag; otherwise the disabled flag is untouched.  Any unhealthy
cycle resets the counter to zero without changing the mode.  Three
consecutive fully-healthy cycles with auto-disable and threshold 3 from
counter 0 end disabled. -/
theorem cycle_health_update_spec (auto : Bool) (threshold : Nat) (s : CtrlState) :
    (fullyHealthy s = true →
        (cycle_health_update auto threshold s).consecutive_healthy_cycles
            = s.consecutive_healthy_cycles + 1
          ∧ ((auto && decide (threshold ≤ s.consecutive_healthy_cycles + 1)) = false →
              (cycle_health_update auto threshold s).is_disabled = s.is_disabled)
          ∧ (auto = true → threshold ≤ s.consecutive_healthy_cycles + 1 →
              (cycle_health_update auto threshold s).is_disabled = true))
      ∧ (fullyHealthy s = false →
          (cycle_health_update auto threshold s).consecutive_healthy_cycles = 0
            ∧ (cycle_health_update auto threshold s).is_disabled = s.is_disabled)
      ∧ (fullyHealthy s = true → s.consecutive_healthy_cycles = 0 →
          (cycle_health_update true 3
            (cycle_health_update true 3 (cycle_health_update true 3 s))).is_disabled
              = true) := by
  obtain ⟨f1, f2, f3, n, d⟩ := s
  refine ⟨?_, ?_, ?_⟩
  · intro h
    refine ⟨by simp [cycle_health_update, h], ?_, ?_⟩
    · intro hcond
      simp [cycle_health_update, h, hcond]
    · intro hauto hth
      subst hauto
      simp [cycle_health_update, h, hth]
  · intro h
    exact ⟨by simp [cycle_health_update, h], by simp [cycle_health_update, h]⟩
  · intro h hn
    simp only [fullyHealthy, Bool.and_eq_true] at h
    obtain ⟨⟨h1, h2⟩, h3⟩ := h
    subst h1; subst h2; subst h3
    have hn' : n = 0 := hn
    subst hn'
    simp [cycle_health_update, fullyHealthy]

/-- Witness for C5: three healthy cycles from a clean healthy state with
auto-disable and threshold 3 end disabled, the first incrementing the
counter to 1. -/
theorem cycle_health_update_spec_witness :
    (cycle_health_update true 3 sHealthy).consecutive_healthy_cycles = 1
      ∧ (cycle_health_update true 3
          (cycle_health_update true 3 (cycle_health_update true 3 sHealthy))).is_disabled
            = true := by
  have h := cycle_health_update_spec true 3 sHealthy
  exact ⟨(h.1 (by decide)).1, h.2.2 (by decide) (by decide)⟩

/-- C10: the discovery tag depends only on the project id and the first 8
characters of the environment id (with the literal `"default"` substituted
when the environment id is empty): environment ids agreeing on their first 8
characters yield the identical tag, hence identical tag-based discovery. -/
theorem supervisor_tag_spec (p e1 e2 : String)
    (h : e1.data.take 8 = e2.data.take 8) :
    get_supervisor_tag p e1 = get_supervisor_tag p e2
      ∧ (∀ ds, get_existing_droplets (get_supervisor_tag p e1) ds
            = get_existing_droplets (get_supervisor_tag p e2) ds)
      ∧ get_supervisor_tag p ""
          = "trigger-supervisor" ++ "-" ++ p ++ "-" ++ "default" := by
  have htag : get_supervisor_tag p e1 = get_supervisor_tag p e2 := by
    unfold get_supervisor_tag
    by_cases h1 : e1 = ""
    · subst h1
      have hd2 : e2.data = [] := by
        have h' : e2.data.take 8 = [] := h.symm
        rcases List.take_eq_nil_iff.mp h' with h8 | hnil
        · exact absurd h8 (by norm_num)
        · exact hnil
      have h2 : e2 = "" := String.ext (by simp [hd2])
      subst h2; rfl
    · by_cases h2 : e2 = ""
      · subst h2
        have hd1 : e1.data = [] := by
          rcases List.take_eq_nil_iff.mp (h.trans (by simp)) with h8 | hnil
          · exact absurd h8 (by norm_num)
          · exact hnil
        exact absurd (String.ext (by simp [hd1]) : e1 = "") h1
      · simp [h1, h2, h]
  exact ⟨htag, fun ds => by rw [htag], rfl⟩

/-- Witness for C10: environment ids differing only from the 9th character
onward produce the same tag. -/
theorem supervisor_tag_spec_witness :
    get_supervisor_tag "proj" "abcdefgh-one" = get_supervisor_tag "proj" "abcdefgh-two" :=
  (supervisor_tag_spec "proj" "abcdefgh-one" "abcdefgh-two" (by decide)).1

/-- C9: when any of the three required configuration keys is absent or
empty, `deploy_supervisor` returns `False` with an empty provider-operation
trace: no listing, no creation, no health check. -/
theorem deploy_supervisor_missing_config (cfg : List (String × String)) (env : DoEnv)
    (k : String) (hk : k ∈ required_keys) (hmiss : cfgTruthy cfg k = false) :
    deploy_supervisor cfg env = (false, []) := by
  have hmem : k ∈ required_keys.filter (fun k => cfgTruthy cfg k = false) :=
    List.mem_filter.mpr ⟨hk, by simp [hmiss]⟩
  have hne : required_keys.filter (fun k => cfgTruthy cfg k = false) ≠ [] :=
    List.ne_nil_of_mem hmem
  unfold deploy_supervisor
  rw [if_pos hne]

/-- Witness for C9: a bundle holding only the worker token is rejected
before any provider call. -/
theorem deploy_supervisor_missing_config_witness :
    deploy_supervisor [("TRIGGER_WORKER_TOKEN", "t")] envEmpty = (false, []) :=
  deploy_supervisor_missing_config [("TRIGGER_WORKER_TOKEN", "t")] envEmpty
    "MANAGED_WORKER_SECRET" (by decide) (by decide)

/-- C7 counterexample: an unrecognised `relreplident` character makes
`check_replica_identity` return `"unknown"`, which is outside the spec's
replicaIdentity enumeration. -/
theorem check_replica_identity_counterexample :
    check_replica_identity dbUnknownIdent = "unknown"
      ∧ "unknown" ∉ ["default", "nothing", "full", "index", "not_found", "error"] := by
  decide

/-- C7 amended: every value `check_replica_identity` can return lies in the
spec's enumeration extended with `"unknown"` (the dictionary default for an
unrecognised `relreplident` character). -/
theorem check_replica_identity_range (db : PgDb) :
    check_replica_identity db
      ∈ ["default", "nothing", "full", "index", "not_found", "error", "unknown"] := by
  unfold check_replica_identity identity_map
  rcases db.relreplident with _ | (_ | c)
  · simp
  · simp
  · dsimp only
    split_ifs <;> simp

/-- C6: a persisted `postgres_configured = true` flag is downgraded to
`False` by the monitoring cycle when the fresh re-check reports replication
not fully configured; in particular a missing publication makes the re-check
report not-configured. -/
theorem postgres_flag_regression (restart_cb : Option (PgDb → PgDb)) (db : PgDb)
    (s : CtrlState) (hflag : s.postgres_configured = true) :
    ((is_replication_configured db).1 = false →
        ((postgres_cycle_step restart_cb db s).1).postgres_configured = false)
      ∧ (db.pub_exists = false → (is_replication_configured db).1 = false) := by
  constructor
  · intro hcheck
    unfold postgres_cycle_step
    simp [hflag, hcheck]
  · intro hpub
    have hne : replicationIssues db ≠ [] := by
      unfold replicationIssues check_publication_exists
      simp [hpub, List.append_eq_nil]
    unfold is_replication_configured
    simp [hne]

/-- Witness for C6: a healthy stored state re-checked against a database
whose publication is gone ends the step with the flag downgraded. -/
theorem postgres_flag_regression_witness :
    ((postgres_cycle_step none dbPubMissing sHealthy).1).postgres_configured = false := by
  have h := postgres_flag_regression none dbPubMissing sHealthy rfl
  exact h.1 (h.2 rfl)

/-- C3 counterexample: with a first droplet whose destroy fails and a second
destroyable droplet, `destroy_droplet` returns from inside the loop after the
first failure — the second droplet is never attempted. -/
theorem destroy_droplet_counterexample :
    (destroy_droplet [dropFailA, dropOkB]).1 = false
      ∧ (destroy_droplet [dropFailA, dropOkB]).2 = ["a"]
      ∧ "b" ∉ (destroy_droplet [dropFailA, dropOkB]).2 := by
  decide

/-- C3 amended: the overall result is `True` iff every destroy succeeds
(vacuously for an empty listing), but a per-node failure stops the loop: the
attempted droplets are the successful front of the list plus the first
failing droplet, so droplets after the first failure are never attempted. -/
theorem destroy_droplet_spec (ds : List Droplet) :
    (destroy_droplet ds).1 = ds.all (fun d => d.destroy_ok)
      ∧ (destroy_droplet ds).2
          = ((ds.takeWhile fun d => d.destroy_ok)
              ++ (ds.dropWhile fun d => d.destroy_ok).take 1).map Droplet.name := by
  induction ds with
  | nil => simp [destroy_droplet]
  | cons d rest ih =>
    by_cases h : d.destroy_ok
    · simp [destroy_droplet, h, List.takeWhile_cons, List.dropWhile_cons, ih.1, ih.2]
    · simp [destroy_droplet, h, List.takeWhile_cons, List.dropWhile_cons]

/-- C2 counterexample: on a database where the WAL level is not logical,
`ALTER SYSTEM` is refused, and replica identity and publication are also
unconfigured, `configure_replication` attempts neither the replica-identity
mutation nor the publication creation. -/
theorem configure_replication_counterexample :
    dbWalRefused.set_wal_ok = false
      ∧ check_replica_identity dbWalRefused ≠ "full"
      ∧ check_publication_exists dbWalRefused = false
      ∧ ¬ (PgAction.setIdent ∈ (configure_replication none dbWalRefused).2.2
            ∧ PgAction.createPub ∈ (configure_replication none dbWalRefused).2.2) := by
  decide

/-- C2 amended: when the status check reports replication unconfigured, the
WAL level is not logical, and setting it fails (a permission/capability
refusal), `configure_replication` aborts immediately: it returns `False`
with the database untouched and `setWal` as the only attempted action —
the replica identity and the publication are not reconciled in that
attempt. -/
theorem configure_replication_wal_failure_aborts
    (restart_cb : Option (PgDb → PgDb)) (db : PgDb)
    (hconf : (is_replication_configured db).1 = false)
    (hwal : check_wal_level db ≠ "logical")
    (hset : db.set_wal_ok = false) :
    configure_replication restart_cb db = (false, db, [PgAction.setWal]) := by
  unfold configure_replication set_wal_level_logical
  simp [hconf, hwal, hset]

/-- Witness for C2 (amended) at the concrete refused database. -/
theorem configure_replication_wal_failure_aborts_witness :
    configure_replication none dbWalRefused = (false, dbWalRefused, [PgAction.setWal]) :=
  configure_replication_wal_failure_aborts none dbWalRefused (by decide) (by decide) rfl

/-- The WAL issue message always starts with `'W'`. -/
theorem head_walIssue (db : PgDb) : (walIssue db).data.head? = some 'W' := by
  unfold walIssue
  rw [String.data_append]
  rfl

/-- The replica-identity issue message always starts with `'R'`. -/
theorem head_identIssue (db : PgDb) : (identIssue db).data.head? = some 'R' := by
  unfold identIssue
  rw [String.data_append]
  rfl

/-- The publication issue message starts with `'P'`. -/
theorem head_pubIssue : pubIssue.data.head? = some 'P' := rfl

/-- The three issue messages are pairwise distinct for any database. -/
theorem issue_messages_distinct (db : PgDb) :
    walIssue db ≠ identIssue db ∧ walIssue db ≠ pubIssue
      ∧ identIssue db ≠ pubIssue := by
  refine ⟨fun h => ?_, fun h => ?_, fun h => ?_⟩
  · have : some 'W' = some 'R' := by
      rw [← head_walIssue db, h, head_identIssue db]
    simp at this
  · have : some 'W' = some 'P' := by
      rw [← head_walIssue db, h, head_pubIssue]
    simp at this
  · have : some 'R' = some 'P' := by
      rw [← head_identIssue db, h, head_pubIssue]
    simp at this

/-- C4: `is_replication_configured` reports `True` exactly when the WAL
level reads `logical`, the replica identity reads `full`, and the
publication exists; when it reports `False`, the explanation is the `"; "`
join of a list containing exactly one entry for each unmet condition and
nothing else. -/
theorem is_replication_configured_spec (db : PgDb) :
    ((is_replication_configured db).1 = true ↔
        (check_wal_level db = "logical" ∧ check_replica_identity db = "full"
          ∧ check_publication_exists db = true))
      ∧ ((is_replication_configured db).1 = false →
          (is_replication_configured db).2
              = String.intercalate "; " (replicationIssues db)
            ∧ (walIssue db ∈ replicationIssues db ↔ check_wal_level db ≠ "logical")
            ∧ (identIssue db ∈ replicationIssues db ↔
                check_replica_identity db ≠ "full")
            ∧ (pubIssue ∈ replicationIssues db ↔ check_publication_exists db = false)
            ∧ (replicationIssues db).length
                = ((if check_wal_level db ≠ "logical" then 1 else 0)
                    + (if check_replica_identity db ≠ "full" then 1 else 0)
                    + (if check_publication_exists db = false then 1 else 0))) := by
  obtain ⟨d1, d2, d3⟩ := issue_messages_distinct db
  unfold is_replication_configured replicationIssues
  by_cases h1 : check_wal_level db = "logical" <;>
    by_cases h2 : check_replica_identity db = "full" <;>
      by_cases h3 : check_publication_exists db = true <;>
        simp_all [d1.symm, d2.symm, d3.symm]

/-- Witness for C4 at a database whose only unmet condition is the WAL
level: the issue list holds the WAL message. -/
theorem is_replication_configured_spec_witness :
    walIssue dbWalOnly ∈ replicationIssues dbWalOnly :=
  (((is_replication_configured_spec dbWalOnly).2 (by decide)).2.1).mpr (by decide)

/-- Every string the scanner reports is a match of the token pattern: the
fixed start `tr_wgt_` followed by a non-empty alphanumeric run. -/
theorem findTokensAux_shape (fuel : Nat) (s : List Char) (tok : List Char)
    (h : tok ∈ findTokensAux fuel s) :
    ∃ suf, suf ≠ [] ∧ suf.all isAlnumChar = true ∧ tok = tokenStart ++ suf := by
  induction fuel generalizing s with
  | zero => simp [findTokensAux] at h
  | succ fuel ih =>
    cases s with
    | nil => simp [findTokensAux] at h
    | cons c rest =>
      unfold findTokensAux at h
      by_cases h1 : (c :: rest).take 7 = tokenStart
      · rw [if_pos h1] at h
        by_cases h2 : (rest.drop 6).takeWhile isAlnumChar = []
        · rw [if_pos h2] at h
          exact ih _ h
        · rw [if_neg h2] at h
          rcases List.mem_cons.mp h with heq | hmem
          · refine ⟨(rest.drop 6).takeWhile isAlnumChar, h2, ?_, heq⟩
            rw [List.all_eq_true]
            intro x hx
            exact List.mem_takeWhile_imp hx
          · exact ih _ hmem
      · rw [if_neg h1] at h
        exact ih _ h

/-- C1: `extract_worker_token` returns the manual override when it is set;
with the override absent it returns a supplied (non-empty) cached token;
with both absent it returns the last match of the `tr_wgt_` + alphanumerics
pattern in the fetched log text, and `None` when the logs are empty or hold
no match — and every reported match really has the pattern's shape. -/
theorem extract_worker_token_priority (manual : String) (cached : Option String)
    (logs : String) :
    (manual ≠ "" → extract_worker_token manual cached logs = some manual)
      ∧ (manual = "" → ∀ t, cached = some t → t ≠ "" →
          extract_worker_token manual cached logs = some t)
      ∧ (manual = "" → optTruthy cached = false →
          extract_worker_token manual cached logs
            = (findTokens logs.data).getLast?.map (fun l => String.mk l))
      ∧ (manual = "" → optTruthy cached = false →
          (logs = "" ∨ findTokens logs.data = []) →
          extract_worker_token manual cached logs = none)
      ∧ (∀ tok ∈ findTokens logs.data,
          ∃ suf, suf ≠ [] ∧ suf.all isAlnumChar = true ∧ tok = tokenStart ++ suf) := by
  have key : manual = "" → optTruthy cached = false →
      extract_worker_token manual cached logs
        = (findTokens logs.data).getLast?.map (fun l => String.mk l) := by
    intro h hc
    subst h
    unfold extract_worker_token
    rw [if_neg (by simp), if_neg (by simp [hc])]
    unfold extractTokenFromLogs
    by_cases hl : logs = ""
    · subst hl
      rw [if_pos rfl]
      rfl
    · rw [if_neg hl]
  refine ⟨?_, ?_, key, ?_, ?_⟩
  · intro h
    unfold extract_worker_token
    rw [if_pos h]
  · intro h t ht htne
    subst h
    subst ht
    unfold extract_worker_token
    rw [if_neg (by simp), if_pos (by simp [optTruthy, htne])]
  · intro h hc hnil
    rw [key h hc]
    rcases hnil with hl | hf
    · subst hl
      rfl
    · rw [hf]
      rfl
  · intro tok htok
    exact findTokensAux_shape _ _ tok htok

/-- Witness for C1: the override wins; with it empty the cache wins; with
both absent the result is the last scanner match of the log text. -/
theorem extract_worker_token_priority_witness :
    extract_worker_token "tok" (some "cached") "x tr_wgt_abc" = some "tok"
      ∧ extract_worker_token "" (some "cached") "x tr_wgt_abc" = some "cached"
      ∧ extract_worker_token "" none "x tr_wgt_a y tr_wgt_b2"
          = (findTokens ("x tr_wgt_a y tr_wgt_b2" : String).data).getLast?.map
              (fun l => String.mk l) := by
  refine ⟨?_, ?_, ?_⟩
  · exact (extract_worker_token_priority "tok" (some "cached") "x tr_wgt_abc").1
      (by decide)
  · exact (extract_worker_token_priority "" (some "cached") "x tr_wgt_abc").2.1
      rfl "cached" rfl (by decide)
  · exact (extract_worker_token_priority "" none "x tr_wgt_a y tr_wgt_b2").2.2.1
      rfl (by decide)

end OpsCtrl
